import Mathlib

/-
Verification of the Mirage adversarial detection simulation core.

The embedding below is a shallow translation of the TypeScript source:
  * `src/utils/prng.ts`                                   — Mulberry32 PRNG
  * `src/features/adversarial_simulator/detectionLogic.ts`— sensor detection model
    and rule evaluation engine (`generateSensorEvent`, `runDetectionLogic`)
  * `src/features/adversarial_simulator/AdversarialSimulator.tsx`
                                                          — tick orchestrator
    (`runSimulationPromise`, actor creation in `handleStartScenario`)

Modelling conventions:
  * JavaScript numbers are modelled as exact rationals (`ℚ`) for probabilities
    and positions, integers (`ℤ`) for millisecond timestamps, and naturals
    (`ℕ`) for indices and counts.  The 32-bit integer arithmetic inside the
    PRNG is modelled on `ℕ` with explicit `% 2^32` where JavaScript coerces
    to 32 bits.
  * The haversine helper `getDistance` is floating-point trigonometry; it is
    abstracted as an explicit parameter `dist : Point → Point → ℚ` threaded
    through every definition that calls it, so every theorem below is proved
    for an arbitrary distance function (in particular the haversine one).
  * `Date.now()` is modelled as an explicit parameter `now : ℤ` — one clock
    reading per engine call, matching the single tick in which the source
    reads it.
  * The stateful PRNG object is threaded explicitly: functions take a `PRNG`
    and return the advanced `PRNG`.
-/

namespace Mirage

/-! ## Deterministic PRNG — `src/utils/prng.ts` (Mulberry32) -/

/-- Modulus of JavaScript 32-bit integer coercion. -/
def UINT32 : ℕ := 4294967296

/-- JavaScript `Math.imul`: 32-bit product of the operands' bit patterns. -/
def imul32 (a b : ℕ) : ℕ := a * b % UINT32

/-- JavaScript `>>>`: logical right shift on the 32-bit bit pattern. -/
def shr32 (a k : ℕ) : ℕ := (a % UINT32) >>> k

/-- JavaScript `|` on 32-bit bit patterns. -/
def or32 (a b : ℕ) : ℕ := (a % UINT32) ||| (b % UINT32)

/-- JavaScript `^` on 32-bit bit patterns. -/
def xor32 (a b : ℕ) : ℕ := (a % UINT32) ^^^ (b % UINT32)

/-- Mulberry32 core (`PRNG.next` in `src/utils/prng.ts`): from the updated seed,
produce the updated seed together with the raw 32-bit output word.
`this.seed += 0x6D2B79F5` is exact double addition in the source, so the seed
itself is not reduced mod 2^32; every bitwise operation coerces to 32 bits. -/
def mulberry32 (s : ℕ) : ℕ × ℕ :=
  let s2 := s + 0x6D2B79F5
  let t0 := s2 % UINT32
  let t1 := imul32 (xor32 t0 (shr32 t0 15)) (or32 t0 1)
  let t2 := xor32 t1 ((t1 + imul32 (xor32 t1 (shr32 t1 7)) (or32 t1 61)) % UINT32)
  (s2, xor32 t2 (shr32 t2 14))

/-- The seedable PRNG object of `src/utils/prng.ts`. -/
structure PRNG where
  seed : ℕ
deriving DecidableEq

/-- `PRNG.next`: the float in `[0,1)` obtained by dividing the 32-bit output
word by `2^32`, together with the advanced generator. -/
def PRNG.next (p : PRNG) : ℚ × PRNG :=
  (((mulberry32 p.seed).2 : ℚ) / (UINT32 : ℚ), ⟨(mulberry32 p.seed).1⟩)

/-- `PRNG.random` is an alias for `PRNG.next` in the source. -/
def PRNG.random (p : PRNG) : ℚ × PRNG := p.next

/-! ## Data model — `src/features/adversarial_simulator/types.ts` -/

/-- A (latitude, longitude) pair. -/
def Point : Type := ℚ × ℚ

instance : DecidableEq Point := instDecidableEqProd

instance : Inhabited Point := ⟨((0 : ℚ), (0 : ℚ))⟩

inductive Weather
  | clear
  | fog
deriving DecidableEq

inductive ActorType
  | adversary
  | civilian
deriving DecidableEq

inductive SensorType
  | camera
  | acoustic
deriving DecidableEq

inductive GpsMode
  | on
  | off
deriving DecidableEq

inductive AlertLevel
  | info
  | warning
  | critical
deriving DecidableEq

structure Sensor where
  id : String
  type : SensorType
  pos : Point
  range : ℚ
  base_p : ℚ
  weather_penalty : Weather → Option ℚ

structure Actor where
  id : String
  type : ActorType
  pos : Point
  path : List Point
  pathIndex : ℕ
  speed : ℚ
  gpsMode : GpsMode
deriving DecidableEq

structure SensorEvent where
  timestamp : ℤ
  sensorId : String
  actorId : String
  confidence : ℚ
  actorPos : Point
deriving DecidableEq

structure Alert where
  id : String
  timestamp : ℤ
  message : String
  level : AlertLevel
  relatedEvents : List SensorEvent
deriving DecidableEq

/-- The `params` bag of a `DetectionRule`.  The source keys it dynamically
(`{ [key: string]: any }`); the engine reads at most these five numeric keys. -/
structure RuleParams where
  min_confidence : ℚ
  time_window_s : ℤ
  min_detections : ℕ
  radius_m : ℚ
  min_actors : ℕ
deriving DecidableEq

/-- A detection rule.  `type` is kept as a plain string because rules are data
produced upstream (AI patch generator); the engine dispatches on the string and
silently skips unrecognized values. -/
structure DetectionRule where
  id : String
  type : String
  params : RuleParams
deriving DecidableEq

/-! ## Rolling detection state

The source keeps one JavaScript object keyed by rule id (event history) and by
`ruleId + "-cooldown"` (a numeric timestamp).  It is modelled as an association
list from keys to a tagged value. -/

inductive StateVal
  | evs (events : List SensorEvent)
  | ts (time : ℤ)
deriving DecidableEq

abbrev DetectionState := List (String × StateVal)

def lookupState (st : DetectionState) (k : String) : Option StateVal :=
  (st.find? (fun p => p.1 = k)).map (fun p => p.2)

/-- Write a key, replacing an existing binding in place (JavaScript object
assignment preserves first-insertion key order). -/
def setState (st : DetectionState) (k : String) (v : StateVal) : DetectionState :=
  if st.any (fun p => p.1 = k) then
    st.map (fun p => if p.1 = k then (k, v) else p)
  else
    st ++ [(k, v)]

/-- Read an event-history slot: `nextState[stateKey] || []` in the source.
An absent key yields `[]`.  (A `ts` value at a history key would make the
source crash on `.filter`; that needs two rules of different kinds sharing an
id and is modelled as the empty history.) -/
def getEvents (st : DetectionState) (k : String) : List SensorEvent :=
  match lookupState st k with
  | some (.evs l) => l
  | _ => []

/-- Cooldown gate of the `group_sighting` case:
`!nextState[cooldownKey] || now > nextState[cooldownKey]` in the source.
An absent cooldown and the number `0` (falsy) permit firing; otherwise the
clock must be strictly past the stored timestamp.  (An event list stored at a
cooldown key would be truthy and compare as `NaN`/`0`; that needs a rule id
ending in `"-cooldown"` colliding with another rule and is modelled as
blocking.) -/
def fireAllowed (st : DetectionState) (k : String) (now : ℤ) : Bool :=
  match lookupState st k with
  | none => true
  | some (.ts c) => c = 0 || now > c
  | some (.evs _) => false

/-! ## Sensor detection model — `generateSensorEvent` in `detectionLogic.ts` -/

/-- Weather attenuation step of `generateSensorEvent`:
`const penalty = sensor.weather_penalty[weather]; if (penalty) detectionProb *= penalty;`.
A missing entry leaves the probability unchanged; so does an entry of `0`,
because `0` is falsy in JavaScript. -/
def applyWeatherPenalty (sensor : Sensor) (weather : Weather) (prob : ℚ) : ℚ :=
  match sensor.weather_penalty weather with
  | some pen => if pen = 0 then prob else prob * pen
  | none => prob

/-- `generateSensorEvent(actor, sensor, weather, prng)`.  Returns the optional
event and the advanced PRNG.  Beyond the sensor's range no draw is consumed.
The zero-range edge: for `range = 0` the source computes `1 - 0/0 = NaN`, every
comparison with `NaN` is false, so the draw is consumed and no event is
emitted; the branch below reproduces that outcome (haversine distances are
nonnegative, so `distance ≤ 0` means `distance = 0` there). -/
def generateSensorEvent (dist : Point → Point → ℚ) (actor : Actor) (sensor : Sensor)
    (weather : Weather) (now : ℤ) (g : PRNG) : Option SensorEvent × PRNG :=
  let d := dist actor.pos sensor.pos
  if d ≤ sensor.range then
    if sensor.range = 0 then
      (none, (g.random).2)
    else
      let p1 := applyWeatherPenalty sensor weather sensor.base_p
      let p2 := p1 * (1 - d / sensor.range)
      let p3 := if actor.type = ActorType.adversary then p2 * (4 / 5) else p2
      let (r, g2) := g.random
      if r < p3 then
        (some { timestamp := now, sensorId := sensor.id, actorId := actor.id,
                confidence := p3, actorPos := actor.pos }, g2)
      else
        (none, g2)
  else
    (none, g)

/-- Event generation pass of `runDetectionLogic`: the nested
`for (const actor of actors) for (const sensor of sensors)` loops, pushing
each emitted event and sequentially consuming the shared PRNG. -/
def generateAllEvents (dist : Point → Point → ℚ) (weather : Weather) (now : ℤ)
    (sensors : List Sensor) (actors : List Actor) (g : PRNG) :
    List SensorEvent × PRNG :=
  actors.foldl (fun acc actor =>
    sensors.foldl (fun acc2 sensor =>
      let (ev, g2) := generateSensorEvent dist actor sensor weather now acc2.2
      (match ev with
       | some e => acc2.1 ++ [e]
       | none => acc2.1, g2)) acc) ([], g)

/-! ## Rule evaluation engine — the `rules.forEach` switch in `runDetectionLogic` -/

/-- `e.actorId === adversary?.id`: true when the adversary exists and the event
is the adversary's. -/
def matchesAdv (advId : Option String) (e : SensorEvent) : Bool :=
  advId = some e.actorId

/-- JavaScript `Set.add`: append the element unless already present. -/
def setInsert (ids : List String) (x : String) : List String :=
  if ids.contains x then ids else ids ++ [x]

/-- The alert pushed by the `high_confidence_sighting` case. -/
def hcAlert (now : ℤ) (e : SensorEvent) : Alert :=
  { id := "alert-hc-" ++ toString now, timestamp := now,
    message := "High confidence sighting of adversary by " ++ e.sensorId ++ ".",
    level := .critical, relatedEvents := [e] }

/-- The alert pushed by the `persistent_sighting` case, referencing the whole
accumulated history. -/
def persAlert (now : ℤ) (history : List SensorEvent) : Alert :=
  { id := "alert-ps-" ++ toString now, timestamp := now,
    message := "Persistent presence of adversary detected.",
    level := .critical, relatedEvents := history }

/-- The alert pushed by the `group_sighting` case.  The source passes the
literal `relatedEvents: []`. -/
def groupAlert (now : ℤ) (n : ℕ) : Alert :=
  { id := "alert-gs-" ++ toString now, timestamp := now,
    message := "Suspicious group of " ++ toString n ++ " actors detected near adversary.",
    level := .critical, relatedEvents := [] }

/-- The `nearbyActorIds` set of the `group_sighting` case: start from the
triggering adversary event's actor, add every actor with a history event
within `radius_m` of the triggering event's position. -/
def groupIds (dist : Point → Point → ℚ) (radius : ℚ) (advE : SensorEvent)
    (history : List SensorEvent) : List String :=
  history.foldl (fun ids h =>
    if dist advE.actorPos h.actorPos < radius then setInsert ids h.actorId
    else ids) [advE.actorId]

/-- Body of the `for (const advEvent of adversaryEventsThisTick)` loop in the
`group_sighting` case. -/
def groupStepSrc (dist : Point → Point → ℚ) (rule : DetectionRule) (now : ℤ)
    (history : List SensorEvent) (acc2 : List Alert × DetectionState)
    (advE : SensorEvent) : List Alert × DetectionState :=
  let ids := groupIds dist rule.params.radius_m advE history
  if rule.params.min_actors ≤ ids.length then
    if fireAllowed acc2.2 (rule.id ++ "-cooldown") now then
      (acc2.1 ++ [groupAlert now ids.length],
       setState acc2.2 (rule.id ++ "-cooldown")
         (.ts (now + rule.params.time_window_s * 1000)))
    else acc2
  else acc2

/-- One iteration of the `rules.forEach` switch: dispatch on the rule `type`
string, producing the extended alert list and updated rolling state.
Unrecognized types fall through the switch and leave both untouched. -/
def evalRule (dist : Point → Point → ℚ) (advId : Option String) (now : ℤ)
    (newEvents : List SensorEvent) (acc : List Alert × DetectionState)
    (rule : DetectionRule) : List Alert × DetectionState :=
  if rule.type = "high_confidence_sighting" then
    match newEvents.find? (fun e => matchesAdv advId e && rule.params.min_confidence < e.confidence) with
    | some e => (acc.1 ++ [hcAlert now e], acc.2)
    | none => acc
  else if rule.type = "persistent_sighting" then
    let kept := (getEvents acc.2 rule.id).filter
      (fun e => now - e.timestamp < rule.params.time_window_s * 1000)
    let history := kept ++ newEvents.filter (matchesAdv advId)
    if rule.params.min_detections ≤ history.length then
      (acc.1 ++ [persAlert now history], setState acc.2 rule.id (.evs []))
    else
      (acc.1, setState acc.2 rule.id (.evs history))
  else if rule.type = "group_sighting" then
    let history := (getEvents acc.2 rule.id ++ newEvents).filter
      (fun e => now - e.timestamp < rule.params.time_window_s * 1000)
    let st1 := setState acc.2 rule.id (.evs history)
    (newEvents.filter (matchesAdv advId)).foldl
      (groupStepSrc dist rule now history) (acc.1, st1)
  else acc

/-- Result record of `runDetectionLogic`, plus the advanced PRNG (mutated in
place in the source). -/
structure DetectionResult where
  newAlerts : List Alert
  newEvents : List SensorEvent
  updatedState : DetectionState
  prng : PRNG
deriving DecidableEq

/-- `runDetectionLogic(actors, sensors, weather, prng, rules, currentState)`:
generate events for the full actor × sensor cross product, short-circuit when
none were produced, then fold the rules (in order) over the alert list and the
copied rolling state.  `now : ℤ` models the `Date.now()` reading of the call. -/
def runDetectionLogic (dist : Point → Point → ℚ) (actors : List Actor)
    (sensors : List Sensor) (weather : Weather) (prng : PRNG)
    (rules : List DetectionRule) (currentState : DetectionState) (now : ℤ) :
    DetectionResult :=
  let (newEvents, g2) := generateAllEvents dist weather now sensors actors prng
  if newEvents = [] then
    { newAlerts := [], newEvents := newEvents, updatedState := currentState, prng := g2 }
  else
    let advId := (actors.find? (fun a => a.type = ActorType.adversary)).map Actor.id
    let res := rules.foldl (evalRule dist advId now newEvents) ([], currentState)
    { newAlerts := res.1, newEvents := newEvents, updatedState := res.2, prng := g2 }

/-! ## Simulation orchestrator — `AdversarialSimulator.tsx` -/

/-- `getRandomPoiName(prng, exclude)`: filter out excluded names, then pick
`poiNames[Math.floor(prng.random() * poiNames.length)]`.  Points of interest
are modelled as an association list from name to position. -/
def getRandomPoiName (pois : List (String × Point)) (exclude : List String)
    (g : PRNG) : String × PRNG :=
  let names := (pois.map (fun p => p.1)).filter (fun n => !(exclude.contains n))
  let (r, g2) := g.random
  (names.getD (Int.toNat ⌊r * names.length⌋) "", g2)

/-- `POINTS_OF_INTEREST[name].pos`. -/
def poiPos (pois : List (String × Point)) (name : String) : Point :=
  ((pois.find? (fun p => p.1 = name)).map (fun p => p.2)).getD default

/-- Civilian creation in `handleStartScenario`: two-point path between two
distinct randomly drawn points of interest, `pathIndex 0`, position at the
start point. -/
def mkCivilian (pois : List (String × Point)) (i : ℕ) (g : PRNG) : Actor × PRNG :=
  let (startPoi, g1) := getRandomPoiName pois [] g
  let (endPoi, g2) := getRandomPoiName pois [startPoi] g1
  ({ id := "civ-" ++ toString i, type := .civilian, pos := poiPos pois startPoi,
     path := [poiPos pois startPoi, poiPos pois endPoi],
     pathIndex := 0, speed := 10, gpsMode := .on }, g2)

/-- Adversary creation in `handleStartScenario`: position at the first waypoint
of the Red-Team path (`pos: scenario.path[0]`), `pathIndex 0`. -/
def mkAdversary (path : List Point) (gps : GpsMode) : Actor :=
  { id := "adv-1", type := .adversary, pos := path.headI, path := path,
    pathIndex := 0, speed := 20, gpsMode := gps }

/-- Advance step of one actor inside the tick interval of
`runSimulationPromise`: an actor not at its last waypoint moves one step
(`pathIndex + 1`, `pos` set to the new waypoint); a civilian at its last
waypoint gets a fresh two-point path (`[actor.pos, randomPoi]`, `pathIndex 0`);
an adversary at its last waypoint is left unchanged.
The source guard `actor.pathIndex >= actor.path.length - 1` is written as
`actor.path.length ≤ actor.pathIndex + 1`, which agrees with the JavaScript
comparison over the integers (including `length = 0`). -/
def advanceActor (pois : List (String × Point)) (a : Actor) (g : PRNG) :
    Actor × PRNG :=
  if a.path.length ≤ a.pathIndex + 1 then
    if a.type = ActorType.civilian then
      let (name, g2) := getRandomPoiName pois [] g
      ({ a with path := [a.pos, poiPos pois name], pathIndex := 0 }, g2)
    else (a, g)
  else
    ({ a with pathIndex := a.pathIndex + 1, pos := a.path.getD (a.pathIndex + 1) a.pos }, g)

/-- `currentActors.map(...)` over the shared PRNG, in list order. -/
def advanceActors (pois : List (String × Point)) :
    List Actor → PRNG → List Actor × PRNG
  | [], g => ([], g)
  | a :: rest, g =>
    let (a2, g2) := advanceActor pois a g
    let (rest2, g3) := advanceActors pois rest g2
    (a2 :: rest2, g3)

/-- Outcome of one tick of `runSimulationPromise`. -/
inductive TickOutcome
  | bypassed
  | detected
  | next (actors : List Actor) (st : DetectionState) (g : PRNG)
deriving DecidableEq

inductive Verdict
  | DETECTED
  | BYPASSED
deriving DecidableEq

/-- One tick of the interval body in `runSimulationPromise`: advance every
actor, resolve `BYPASSED` if there is no adversary or the adversary has
reached its last waypoint, otherwise run the detection logic and resolve
`DETECTED` on any critical alert. -/
def simTick (dist : Point → Point → ℚ) (pois : List (String × Point))
    (sensors : List Sensor) (rules : List DetectionRule) (weather : Weather)
    (now : ℤ) (actors : List Actor) (st : DetectionState) (g : PRNG) :
    TickOutcome :=
  let (actors2, g2) := advanceActors pois actors g
  match actors2.find? (fun a => a.type = ActorType.adversary) with
  | none => .bypassed
  | some adv =>
    if adv.path.length ≤ adv.pathIndex + 1 then .bypassed
    else
      let res := runDetectionLogic dist actors2 sensors weather g2 rules st now
      if res.newAlerts.any (fun a => a.level = AlertLevel.critical) then .detected
      else .next actors2 res.updatedState res.prng

/-- The tick loop of `runSimulationPromise`, with the wall clock advancing by
`TICK_RATE_MS = 1000` per tick.  `fuel` bounds the number of ticks; `none`
means the fuel ran out before the loop resolved. -/
def runSim (dist : Point → Point → ℚ) (pois : List (String × Point))
    (sensors : List Sensor) (rules : List DetectionRule) (weather : Weather) :
    ℕ → ℤ → List Actor → DetectionState → PRNG → Option Verdict
  | 0, _, _, _, _ => none
  | fuel + 1, now, actors, st, g =>
    match simTick dist pois sensors rules weather now actors st g with
    | .bypassed => some .BYPASSED
    | .detected => some .DETECTED
    | .next a2 st2 g2 => runSim dist pois sensors rules weather fuel (now + 1000) a2 st2 g2

/-- The first adversary of the actor list, as found by
`actors.find(a => a.type === 'adversary')`. -/
def findAdv (actors : List Actor) : Option Actor :=
  actors.find? (fun a => a.type = ActorType.adversary)

/-- Remaining waypoints of the adversary: the termination measure of the tick
loop. -/
def advMeasure (actors : List Actor) : ℕ :=
  match findAdv actors with
  | none => 0
  | some adv => adv.path.length - adv.pathIndex

/-- The adversary's current `pathIndex`, when an adversary exists. -/
def advPathIndex (actors : List Actor) : Option ℕ :=
  (findAdv actors).map Actor.pathIndex

/-- Well-formedness invariant of an actor (spec §3): `pathIndex` is a valid
index into `path` and `pos` is the waypoint at that index. -/
def ActorWF (a : Actor) : Prop :=
  a.pathIndex < a.path.length ∧ a.path[a.pathIndex]? = some a.pos

/-! ## Spec-side descriptions (refinement targets)

The following definitions transcribe the spec's §4.4 table rows in the spec's
own vocabulary; the refinement theorems below prove the source-side engine
equal to them. -/

/-- Spec §4.4, `persistent_sighting` row: prune the per-rule list to the
trailing window, append this tick's adversary events, and on reaching
`min_detections` fire one critical alert referencing the whole list and reset
the stored list to empty.  Returns (alerts fired, list to store). -/
def persistentSpecStep (advId : Option String) (now : ℤ) (rule : DetectionRule)
    (newEvents : List SensorEvent) (prev : List SensorEvent) :
    List Alert × List SensorEvent :=
  let kept := prev.filter (fun e => now - e.timestamp < rule.params.time_window_s * 1000)
  let history := kept ++ newEvents.filter (matchesAdv advId)
  if rule.params.min_detections ≤ history.length then
    ([persAlert now history], [])
  else
    ([], history)

/-- Spec §4.4, `group_sighting` row: the number of distinct actor identities —
the adversary of the triggering event included — whose historical event
position lies within `radius_m` of the triggering event's position. -/
def distinctNearby (dist : Point → Point → ℚ) (radius : ℚ) (advE : SensorEvent)
    (hist : List SensorEvent) : ℕ :=
  (advE.actorId ::
    (hist.filter (fun h => dist advE.actorPos h.actorPos < radius)).map
      SensorEvent.actorId).dedup.length

/-- Result of the spec-side `group_sighting` step. -/
structure GroupStepResult where
  alerts : List Alert
  hist : List SensorEvent
  fired : Bool
  cooldown : Option ℤ
deriving DecidableEq

/-- Cooldown gate in the spec's vocabulary: a recorded nonzero cooldown `c`
with `now ≤ c` suppresses the alert. -/
def cdBlocked (cd : Option ℤ) (now : ℤ) : Bool :=
  match cd with
  | some c => !(c = 0) && now ≤ c
  | none => false

/-- One adversary event of the spec-side `group_sighting` step. -/
def groupStepSpec (dist : Point → Point → ℚ) (rule : DetectionRule) (now : ℤ)
    (hist : List SensorEvent) (acc : List Alert × Bool × Option ℤ)
    (advE : SensorEvent) : List Alert × Bool × Option ℤ :=
  let n := distinctNearby dist rule.params.radius_m advE hist
  if rule.params.min_actors ≤ n then
    if cdBlocked acc.2.2 now then acc
    else
      (acc.1 ++ [groupAlert now n], true,
       some (now + rule.params.time_window_s * 1000))
  else acc

/-- Spec §4.4, `group_sighting` row (with the cooldown boundary as the code
has it): prune the rolling list of all actors' events to the trailing window;
for each adversary event this tick, fire a critical alert when the distinct
nearby actor count reaches `min_actors`, unless a recorded nonzero cooldown
`c` satisfies `now ≤ c`; each firing records the cooldown
`now + time_window_s * 1000`. -/
def groupSpecStep (dist : Point → Point → ℚ) (advId : Option String) (now : ℤ)
    (rule : DetectionRule) (newEvents : List SensorEvent)
    (prev : List SensorEvent) (cd0 : Option ℤ) : GroupStepResult :=
  let hist := (prev ++ newEvents).filter
    (fun e => now - e.timestamp < rule.params.time_window_s * 1000)
  let res := (newEvents.filter (matchesAdv advId)).foldl
    (groupStepSpec dist rule now hist) ([], false, cd0)
  { alerts := res.1, hist := hist, fired := res.2.1, cooldown := res.2.2 }

/-- A state slot is a well-typed cooldown slot: absent, or a stored timestamp.
This always holds for the cooldown keys of real runs (the engine only ever
writes `.ts` values there). -/
def cooldownWF (st : DetectionState) (k : String) : Prop :=
  ∀ v, lookupState st k = some v → ∃ c, v = StateVal.ts c

/-- The stored cooldown timestamp, if any. -/
def getCooldown (st : DetectionState) (k : String) : Option ℤ :=
  match lookupState st k with
  | some (.ts c) => some c
  | _ => none

/-- Rule types the engine recognizes; everything else falls through the switch. -/
def recognizedRule (r : DetectionRule) : Bool :=
  r.type = "high_confidence_sighting" || r.type = "persistent_sighting" ||
    r.type = "group_sighting"

/-! ## Concrete probe inputs for witnesses and counterexamples -/

/-- A distance function that reports every pair of points as coincident. -/
def distZero : Point → Point → ℚ := fun _ _ => 0

def distFar : Point → Point → ℚ := fun _ _ => 200

def probeActor : Actor :=
  { id := "a1", type := .civilian, pos := ((0 : ℚ), (0 : ℚ)), path := [((0 : ℚ), (0 : ℚ))],
    pathIndex := 0, speed := 10, gpsMode := .on }

def advProbe : Actor :=
  { id := "adv-1", type := .adversary, pos := ((0 : ℚ), (0 : ℚ)), path := [((0 : ℚ), (0 : ℚ))],
    pathIndex := 0, speed := 20, gpsMode := .off }

/-- An adversary probe with a three-waypoint path, used to exercise a
continuing tick. -/
def advPath2 : Actor :=
  { id := "adv-1", type := .adversary, pos := ((0 : ℚ), (0 : ℚ)),
    path := [((0 : ℚ), (0 : ℚ)), ((1 : ℚ), (1 : ℚ)), ((2 : ℚ), (2 : ℚ))],
    pathIndex := 0, speed := 20, gpsMode := .off }

def probeSensor : Sensor :=
  { id := "s1", type := .camera, pos := ((0 : ℚ), (0 : ℚ)), range := 100, base_p := 1,
    weather_penalty := fun _ => none }

/-- A camera whose fog penalty entry is the factor `0`. -/
def fogSensor : Sensor :=
  { id := "s2", type := .camera, pos := ((0 : ℚ), (0 : ℚ)), range := 100, base_p := 1,
    weather_penalty := fun w => match w with | .fog => some 0 | .clear => none }

/-- A camera with a nonzero fog penalty entry. -/
def fogCam : Sensor :=
  { id := "s3", type := .camera, pos := ((0 : ℚ), (0 : ℚ)), range := 100, base_p := 1,
    weather_penalty := fun w => match w with | .fog => some (2 / 5) | .clear => none }

def groupProbeRule : DetectionRule :=
  { id := "g1", type := "group_sighting",
    params := { min_confidence := 0, time_window_s := 10, min_detections := 0,
                radius_m := 1, min_actors := 1 } }

def persProbeRule : DetectionRule :=
  { id := "p1", type := "persistent_sighting",
    params := { min_confidence := 0, time_window_s := 10, min_detections := 3,
                radius_m := 0, min_actors := 0 } }

def hcProbeRule : DetectionRule :=
  { id := "h1", type := "high_confidence_sighting",
    params := { min_confidence := 0, time_window_s := 0, min_detections := 0,
                radius_m := 0, min_actors := 0 } }

/-- Adversary-tagged probe event at tick `i` (timestamp `1000 * i` ms). -/
def pev (i : ℤ) : SensorEvent :=
  { timestamp := 1000 * i, sensorId := "s1", actorId := "adv-1",
    confidence := 1, actorPos := ((0 : ℚ), (0 : ℚ)) }

/-- A rolling state whose `group_sighting` cooldown for rule `g1` is exactly
the probe clock reading `5000`. -/
def cdState : DetectionState := [("g1-cooldown", StateVal.ts 5000)]

/-! ## Helper lemmas: the rolling-state association list -/

@[simp]
theorem lookupState_nil (k : String) : lookupState [] k = none := rfl

@[simp]
theorem lookupState_cons (p : String × StateVal) (rest : DetectionState) (k : String) :
    lookupState (p :: rest) k = if p.1 = k then some p.2 else lookupState rest k := by
  by_cases h : p.1 = k <;> simp [lookupState, List.find?_cons, h]

theorem lookup_map_subst (st : DetectionState) (k k2 : String) (v : StateVal)
    (h : k2 ≠ k) :
    lookupState (st.map (fun p => if p.1 = k then (k, v) else p)) k2 =
      lookupState st k2 := by
  induction st with
  | nil => rfl
  | cons p rest ih =>
    by_cases hp : p.1 = k
    · have hp2 : ¬p.1 = k2 := by rw [hp]; exact Ne.symm h
      simp [hp, hp2, Ne.symm h, ih]
    · by_cases hp2 : p.1 = k2 <;> simp [hp, hp2, h, ih]

theorem lookup_append_single (st : DetectionState) (k k2 : String) (v : StateVal)
    (h : k2 ≠ k) :
    lookupState (st ++ [(k, v)]) k2 = lookupState st k2 := by
  induction st with
  | nil => simp [Ne.symm h]
  | cons p rest ih =>
    by_cases hp2 : p.1 = k2 <;> simp [hp2, ih]

theorem lookupState_setState_self (st : DetectionState) (k : String) (v : StateVal) :
    lookupState (setState st k v) k = some v := by
  unfold setState
  split
  case isTrue hany =>
    induction st with
    | nil => simp at hany
    | cons p rest ih =>
      by_cases hp : p.1 = k
      · simp [hp]
      · simp only [List.any_cons, Bool.or_eq_true, decide_eq_true_eq] at hany
        rcases hany with h | h
        · exact absurd h hp
        · simpa [hp] using ih h
  case isFalse hany =>
    induction st with
    | nil => simp
    | cons p rest ih =>
      simp only [List.any_cons, Bool.or_eq_true, decide_eq_true_eq, not_or] at hany
      simpa [hany.1] using ih (by simpa using hany.2)

theorem lookupState_setState_ne (st : DetectionState) (k k2 : String) (v : StateVal)
    (h : k2 ≠ k) : lookupState (setState st k v) k2 = lookupState st k2 := by
  unfold setState
  split
  · exact lookup_map_subst st k k2 v h
  · exact lookup_append_single st k k2 v h

theorem setState_setState_self (st : DetectionState) (k : String) (v w : StateVal) :
    setState (setState st k v) k w = setState st k w := by
  unfold setState
  by_cases hany : st.any (fun p => p.1 = k)
  · have hany2 : (st.map (fun p => if p.1 = k then (k, v) else p)).any
        (fun p => p.1 = k) := by
      simp only [List.any_map, List.any_eq_true] at hany ⊢
      rcases hany with ⟨p, hp, hpk⟩
      exact ⟨p, hp, by simp at hpk; simp [Function.comp, hpk]⟩
    simp only [hany, hany2, if_true, List.map_map]
    apply List.map_congr_left
    intro p _
    by_cases hp : p.1 = k <;> simp [Function.comp, hp]
  · have hany2 : (st ++ [(k, v)]).any (fun p => p.1 = k) := by simp
    simp only [hany, hany2, if_true, if_false, List.map_append]
    have hid : st.map (fun p => if p.1 = k then (k, w) else p) = st := by
      conv_rhs => rw [← List.map_id st]
      apply List.map_congr_left
      intro p hp
      have hnk : ¬p.1 = k := by
        intro hpk
        exact hany (List.any_eq_true.mpr ⟨p, hp, by simp [hpk]⟩)
      simp [hnk]
    simp [hid]

theorem cooldown_key_ne (k : String) : ¬(k ++ "-cooldown" = k) := by
  intro h
  have hlen := congrArg String.length h
  rw [String.length_append] at hlen
  have h9 : ("-cooldown" : String).length = 9 := by decide
  omega

/-! ## Helper lemmas: the JavaScript `Set` fold counts distinct identities -/

theorem setInsert_nodup {ids : List String} (x : String) (h : ids.Nodup) :
    (setInsert ids x).Nodup := by
  unfold setInsert
  split
  · exact h
  case isFalse hx =>
    have hmem : x ∉ ids := by simpa using hx
    simp [List.nodup_append, h, hmem]

theorem setInsert_toFinset (ids : List String) (x : String) :
    (setInsert ids x).toFinset = insert x ids.toFinset := by
  unfold setInsert
  split
  case isTrue hx =>
    have hmem : x ∈ ids := by simpa using hx
    rw [Finset.insert_eq_self.mpr (List.mem_toFinset.mpr hmem)]
  case isFalse hx =>
    simp only [List.toFinset_append, List.toFinset_cons, List.toFinset_nil,
      insert_emptyc_eq]
    rw [Finset.union_comm, ← Finset.insert_eq]

theorem foldl_setInsert_nodup :
    ∀ (l ids : List String), ids.Nodup → (l.foldl setInsert ids).Nodup
  | [], _, h => h
  | x :: l, ids, h => foldl_setInsert_nodup l (setInsert ids x) (setInsert_nodup x h)

theorem foldl_setInsert_toFinset :
    ∀ (l ids : List String), (l.foldl setInsert ids).toFinset = ids.toFinset ∪ l.toFinset
  | [], ids => by simp
  | x :: l, ids => by
    rw [List.foldl_cons, foldl_setInsert_toFinset l (setInsert ids x),
      setInsert_toFinset, List.toFinset_cons, Finset.insert_union,
      Finset.union_insert]

theorem groupIds_eq_foldl (dist : Point → Point → ℚ) (radius : ℚ)
    (advE : SensorEvent) (hist : List SensorEvent) :
    groupIds dist radius advE hist =
      ((hist.filter (fun h => dist advE.actorPos h.actorPos < radius)).map
        SensorEvent.actorId).foldl setInsert [advE.actorId] := by
  unfold groupIds
  generalize [advE.actorId] = ids
  induction hist generalizing ids with
  | nil => rfl
  | cons h rest ih =>
    by_cases hc : dist advE.actorPos h.actorPos < radius <;>
      simp [hc, List.filter_cons, ih]

theorem groupIds_length (dist : Point → Point → ℚ) (radius : ℚ)
    (advE : SensorEvent) (hist : List SensorEvent) :
    (groupIds dist radius advE hist).length = distinctNearby dist radius advE hist := by
  rw [groupIds_eq_foldl]
  set l := (hist.filter (fun h => dist advE.actorPos h.actorPos < radius)).map
    SensorEvent.actorId with hl
  have hnd : (l.foldl setInsert [advE.actorId]).Nodup :=
    foldl_setInsert_nodup l [advE.actorId] (by simp)
  have hcard := List.toFinset_card_of_nodup hnd
  rw [← hcard, foldl_setInsert_toFinset]
  unfold distinctNearby
  rw [← List.card_toFinset, List.toFinset_cons, ← hl]
  simp [Finset.insert_eq]

/-! ## Helper lemmas: characterizing the rule engine case by case -/

theorem evalRule_not_recognized (dist : Point → Point → ℚ) (advId : Option String)
    (now : ℤ) (evts : List SensorEvent) (acc : List Alert × DetectionState)
    (rule : DetectionRule) (h : recognizedRule rule = false) :
    evalRule dist advId now evts acc rule = acc := by
  unfold recognizedRule at h
  simp only [Bool.or_eq_false_iff, decide_eq_false_iff_not] at h
  obtain ⟨⟨h1, h2⟩, h3⟩ := h
  simp [evalRule, h1, h2, h3]

theorem evalRule_hc_eq (dist : Point → Point → ℚ) (advId : Option String)
    (now : ℤ) (evts : List SensorEvent) (acc : List Alert × DetectionState)
    (rule : DetectionRule) (h : rule.type = "high_confidence_sighting") :
    evalRule dist advId now evts acc rule =
      match evts.find?
          (fun e => matchesAdv advId e && rule.params.min_confidence < e.confidence) with
      | some e => (acc.1 ++ [hcAlert now e], acc.2)
      | none => acc := by
  simp [evalRule, h]

theorem evalRule_ps_eq (dist : Point → Point → ℚ) (advId : Option String)
    (now : ℤ) (evts : List SensorEvent) (acc : List Alert × DetectionState)
    (rule : DetectionRule) (h : rule.type = "persistent_sighting") :
    evalRule dist advId now evts acc rule =
      (acc.1 ++ (persistentSpecStep advId now rule evts (getEvents acc.2 rule.id)).1,
       setState acc.2 rule.id
         (.evs (persistentSpecStep advId now rule evts (getEvents acc.2 rule.id)).2)) := by
  by_cases hlen : rule.params.min_detections ≤
      ((getEvents acc.2 rule.id).filter
          (fun e => now - e.timestamp < rule.params.time_window_s * 1000) ++
        evts.filter (matchesAdv advId)).length
  · simp only [List.length_append] at hlen
    simp [evalRule, persistentSpecStep, h, hlen]
  · simp only [List.length_append] at hlen
    simp [evalRule, persistentSpecStep, h, hlen]

theorem fireAllowed_eq_cdBlocked (st : DetectionState) (k : String) (now : ℤ)
    (hwf : cooldownWF st k) :
    fireAllowed st k now = !(cdBlocked (getCooldown st k) now) := by
  unfold fireAllowed getCooldown
  cases hlook : lookupState st k with
  | none => simp [cdBlocked]
  | some v =>
    rcases hwf v hlook with ⟨c, rfl⟩
    by_cases hc : c = 0
    · simp [cdBlocked, hc]
    · by_cases hnow : now ≤ c
      · have hgt : ¬now > c := by omega
        simp [cdBlocked, hc, hnow, hgt]
      · have hgt : now > c := by omega
        simp [cdBlocked, hc, hnow, hgt]

theorem groupStepSrc_eq (dist : Point → Point → ℚ) (rule : DetectionRule)
    (now : ℤ) (hist : List SensorEvent) (acc2 : List Alert × DetectionState)
    (advE : SensorEvent) :
    groupStepSrc dist rule now hist acc2 advE =
      if rule.params.min_actors ≤ distinctNearby dist rule.params.radius_m advE hist then
        (if fireAllowed acc2.2 (rule.id ++ "-cooldown") now then
          (acc2.1 ++ [groupAlert now (distinctNearby dist rule.params.radius_m advE hist)],
           setState acc2.2 (rule.id ++ "-cooldown")
             (.ts (now + rule.params.time_window_s * 1000)))
        else acc2)
      else acc2 := by
  unfold groupStepSrc
  simp only [groupIds_length]

theorem groupSrc_spec_fold (dist : Point → Point → ℚ) (rule : DetectionRule)
    (now : ℤ) (hist : List SensorEvent) (st1 : DetectionState)
    (alerts0 : List Alert) (advEvts : List SensorEvent) :
    ∀ (sAlerts : List Alert) (fired : Bool) (cd : Option ℤ),
      cooldownWF (if fired then setState st1 (rule.id ++ "-cooldown")
          (.ts (now + rule.params.time_window_s * 1000)) else st1)
        (rule.id ++ "-cooldown") →
      getCooldown (if fired then setState st1 (rule.id ++ "-cooldown")
          (.ts (now + rule.params.time_window_s * 1000)) else st1)
        (rule.id ++ "-cooldown") = cd →
      advEvts.foldl (groupStepSrc dist rule now hist)
          (alerts0 ++ sAlerts,
           if fired then setState st1 (rule.id ++ "-cooldown")
             (.ts (now + rule.params.time_window_s * 1000)) else st1) =
        (alerts0 ++ (advEvts.foldl (groupStepSpec dist rule now hist) (sAlerts, fired, cd)).1,
         if (advEvts.foldl (groupStepSpec dist rule now hist) (sAlerts, fired, cd)).2.1 then
           setState st1 (rule.id ++ "-cooldown")
             (.ts (now + rule.params.time_window_s * 1000)) else st1) := by
  induction advEvts with
  | nil => intro sAlerts fired cd _ _; rfl
  | cons advE rest ih =>
    intro sAlerts fired cd hwf hcd
    rw [List.foldl_cons, List.foldl_cons, groupStepSrc_eq]
    have hfa := fireAllowed_eq_cdBlocked _ _ now hwf
    rw [hcd] at hfa
    by_cases hmin : rule.params.min_actors ≤ distinctNearby dist rule.params.radius_m advE hist
    · by_cases hb : cdBlocked cd now = true
      · have hspec : groupStepSpec dist rule now hist (sAlerts, fired, cd) advE =
            (sAlerts, fired, cd) := by
          unfold groupStepSpec
          simp [hmin, hb]
        rw [hspec]
        simp only [hmin, if_true, hfa, hb, Bool.not_true, Bool.false_eq_true, if_false]
        exact ih sAlerts fired cd hwf hcd
      · have hspec : groupStepSpec dist rule now hist (sAlerts, fired, cd) advE =
            (sAlerts ++ [groupAlert now (distinctNearby dist rule.params.radius_m advE hist)],
             true, some (now + rule.params.time_window_s * 1000)) := by
          unfold groupStepSpec
          simp [hmin, hb]
        rw [hspec]
        have hfire : fireAllowed
            (if fired then setState st1 (rule.id ++ "-cooldown")
              (.ts (now + rule.params.time_window_s * 1000)) else st1)
            (rule.id ++ "-cooldown") now = true := by
          rw [hfa]
          simp [hb]
        simp only [hmin, if_true, hfire]
        have hstate : setState
            (if fired then setState st1 (rule.id ++ "-cooldown")
              (.ts (now + rule.params.time_window_s * 1000)) else st1)
            (rule.id ++ "-cooldown") (.ts (now + rule.params.time_window_s * 1000)) =
            setState st1 (rule.id ++ "-cooldown")
              (.ts (now + rule.params.time_window_s * 1000)) := by
          cases fired with
          | true => simp [setState_setState_self]
          | false => simp
        rw [hstate]
        have hwf2 : cooldownWF (setState st1 (rule.id ++ "-cooldown")
            (.ts (now + rule.params.time_window_s * 1000))) (rule.id ++ "-cooldown") := by
          intro v hv
          rw [lookupState_setState_self] at hv
          exact ⟨now + rule.params.time_window_s * 1000, (Option.some_inj.mp hv).symm⟩
        have hcd2 : getCooldown (setState st1 (rule.id ++ "-cooldown")
            (.ts (now + rule.params.time_window_s * 1000))) (rule.id ++ "-cooldown") =
            some (now + rule.params.time_window_s * 1000) := by
          unfold getCooldown
          rw [lookupState_setState_self]
        have := ih (sAlerts ++ [groupAlert now (distinctNearby dist rule.params.radius_m advE hist)])
          true (some (now + rule.params.time_window_s * 1000))
          (by simpa using hwf2) (by simpa using hcd2)
        simpa [List.append_assoc] using this
    · have hspec : groupStepSpec dist rule now hist (sAlerts, fired, cd) advE =
          (sAlerts, fired, cd) := by
        unfold groupStepSpec
        simp [hmin]
      rw [hspec]
      simp only [hmin, if_false]
      exact ih sAlerts fired cd hwf hcd

theorem evalRule_gs_eq (dist : Point → Point → ℚ) (advId : Option String)
    (now : ℤ) (evts : List SensorEvent) (acc : List Alert × DetectionState)
    (rule : DetectionRule) (h : rule.type = "group_sighting")
    (hwf : cooldownWF acc.2 (rule.id ++ "-cooldown")) :
    evalRule dist advId now evts acc rule =
      (acc.1 ++ (groupSpecStep dist advId now rule evts (getEvents acc.2 rule.id)
          (getCooldown acc.2 (rule.id ++ "-cooldown"))).alerts,
       if (groupSpecStep dist advId now rule evts (getEvents acc.2 rule.id)
          (getCooldown acc.2 (rule.id ++ "-cooldown"))).fired then
         setState (setState acc.2 rule.id
             (.evs (groupSpecStep dist advId now rule evts (getEvents acc.2 rule.id)
               (getCooldown acc.2 (rule.id ++ "-cooldown"))).hist))
           (rule.id ++ "-cooldown") (.ts (now + rule.params.time_window_s * 1000))
       else
         setState acc.2 rule.id
           (.evs (groupSpecStep dist advId now rule evts (getEvents acc.2 rule.id)
             (getCooldown acc.2 (rule.id ++ "-cooldown"))).hist)) := by
  have hist : List SensorEvent := []
  have hne : ¬(rule.id ++ "-cooldown" = rule.id) := cooldown_key_ne rule.id
  have hlook : lookupState
      (setState acc.2 rule.id
        (.evs ((getEvents acc.2 rule.id ++ evts).filter
          (fun e => now - e.timestamp < rule.params.time_window_s * 1000))))
      (rule.id ++ "-cooldown") = lookupState acc.2 (rule.id ++ "-cooldown") :=
    lookupState_setState_ne _ _ _ _ hne
  have hwf1 : cooldownWF
      (setState acc.2 rule.id
        (.evs ((getEvents acc.2 rule.id ++ evts).filter
          (fun e => now - e.timestamp < rule.params.time_window_s * 1000))))
      (rule.id ++ "-cooldown") := by
    intro v hv
    rw [hlook] at hv
    exact hwf v hv
  have hcd1 : getCooldown
      (setState acc.2 rule.id
        (.evs ((getEvents acc.2 rule.id ++ evts).filter
          (fun e => now - e.timestamp < rule.params.time_window_s * 1000))))
      (rule.id ++ "-cooldown") = getCooldown acc.2 (rule.id ++ "-cooldown") := by
    unfold getCooldown
    rw [hlook]
  have hfold := groupSrc_spec_fold dist rule now
    ((getEvents acc.2 rule.id ++ evts).filter
      (fun e => now - e.timestamp < rule.params.time_window_s * 1000))
    (setState acc.2 rule.id
      (.evs ((getEvents acc.2 rule.id ++ evts).filter
        (fun e => now - e.timestamp < rule.params.time_window_s * 1000))))
    acc.1 (evts.filter (matchesAdv advId)) [] false
    (getCooldown acc.2 (rule.id ++ "-cooldown"))
    (by simpa using hwf1) (by simpa using hcd1)
  simp only [Bool.false_eq_true, if_false, List.append_nil] at hfold
  unfold evalRule
  rw [h]
  rw [if_neg (by decide : ¬(("group_sighting" : String) = "high_confidence_sighting"))]
  rw [if_neg (by decide : ¬(("group_sighting" : String) = "persistent_sighting"))]
  rw [if_pos (rfl : ("group_sighting" : String) = "group_sighting")]
  exact hfold

/-! ## Evaluation lemmas for the probe inputs -/

theorem mulberry32_zero : mulberry32 0 = (1831565813, 1144304738) := by decide

theorem mulberry32_fortytwo : mulberry32 42 = (1831565855, 2581720956) := by decide

/-- The probe civilian at distance 0 from the full-strength sensor is always
detected (its detection probability is 1) with confidence 1; the event's
timestamp is the clock reading. -/
theorem probe_event (now : ℤ) :
    generateSensorEvent distZero probeActor probeSensor .clear now ⟨0⟩ =
      (some { timestamp := now, sensorId := "s1", actorId := "a1",
              confidence := 1, actorPos := ((0 : ℚ), (0 : ℚ)) }, ⟨1831565813⟩) := by
  unfold generateSensorEvent applyWeatherPenalty distZero probeActor probeSensor
  unfold PRNG.random PRNG.next
  rw [mulberry32_zero]
  have hct : ¬(ActorType.civilian = ActorType.adversary) := by decide
  norm_num [UINT32, hct]

/-- The probe adversary at distance 0: detection probability
`1 * (1 - 0/100) * 0.8 = 4/5`; the seed-42 draw `2581720956/2^32 ≈ 0.601`
is below it, so the event fires with confidence `4/5`. -/
theorem adv_probe_event (now : ℤ) :
    generateSensorEvent distZero advProbe probeSensor .clear now ⟨42⟩ =
      (some { timestamp := now, sensorId := "s1", actorId := "adv-1",
              confidence := 4 / 5, actorPos := ((0 : ℚ), (0 : ℚ)) }, ⟨1831565855⟩) := by
  unfold generateSensorEvent applyWeatherPenalty distZero advProbe probeSensor
  unfold PRNG.random PRNG.next
  rw [mulberry32_fortytwo]
  norm_num [UINT32]

/-- With the fog penalty entry `0`, the JavaScript falsy test skips the
multiplication: the probability stays `1` and the event still fires. -/
theorem fog_event :
    generateSensorEvent distZero probeActor fogSensor .fog 0 ⟨0⟩ =
      (some { timestamp := 0, sensorId := "s2", actorId := "a1",
              confidence := 1, actorPos := ((0 : ℚ), (0 : ℚ)) }, ⟨1831565813⟩) := by
  unfold generateSensorEvent applyWeatherPenalty distZero probeActor fogSensor
  unfold PRNG.random PRNG.next
  rw [mulberry32_zero]
  have hct : ¬(ActorType.civilian = ActorType.adversary) := by decide
  norm_num [UINT32, hct]

/-- Full engine call on the probe civilian with no rules: one event carrying
the clock reading as its timestamp, no alerts, untouched state. -/
theorem probe_run (now : ℤ) :
    runDetectionLogic distZero [probeActor] [probeSensor] .clear ⟨0⟩ [] [] now =
      { newAlerts := [],
        newEvents := [{ timestamp := now, sensorId := "s1", actorId := "a1",
                        confidence := 1, actorPos := ((0 : ℚ), (0 : ℚ)) }],
        updatedState := [], prng := ⟨1831565813⟩ } := by
  unfold runDetectionLogic generateAllEvents
  simp [probe_event]

/-- Full engine call on the probe adversary with one `group_sighting` rule
(`min_actors = 1`): the rule fires once and the emitted alert carries
`relatedEvents = []`. -/
theorem group_run_alerts :
    (runDetectionLogic distZero [advProbe] [probeSensor] .clear ⟨42⟩
      [groupProbeRule] [] 0).newAlerts = [groupAlert 0 1] := by
  unfold runDetectionLogic generateAllEvents
  simp only [List.foldl_cons, List.foldl_nil, adv_probe_event]
  have hs1 : ¬(("group_sighting" : String) = "high_confidence_sighting") := by decide
  have hs2 : ¬(("group_sighting" : String) = "persistent_sighting") := by decide
  have happ : ("g1" ++ "-cooldown" : String) = "g1-cooldown" := rfl
  have hkey : ¬(("g1" : String) = "g1-cooldown") := by decide
  norm_num [evalRule, groupProbeRule, groupStepSrc, groupIds, setInsert,
    fireAllowed, lookupState, getEvents, setState, matchesAdv, advProbe,
    hs1, hs2, happ, hkey]

/-! ## Claim theorems -/

/-- C1 (counterexample): two runs of `runDetectionLogic` that differ only in
the wall-clock reading (`Date.now()`) produce different event lists — the
emitted event's timestamp is the clock reading, so the wall clock is a hidden
input beyond the seed, the explicit arguments and the PRNG state. -/
theorem runDetectionLogic_wallclock_dependent :
    (runDetectionLogic distZero [probeActor] [probeSensor] .clear ⟨0⟩ [] [] 0).newEvents ≠
      (runDetectionLogic distZero [probeActor] [probeSensor] .clear ⟨0⟩ [] [] 1).newEvents := by
  rw [probe_run 0, probe_run 1]
  simp

/-- C1 (amended): `runDetectionLogic` is a pure function of its explicit
inputs, the PRNG state and the wall-clock reading: two runs whose inputs —
including the `Date.now()` reading `now` — coincide produce identical event
lists, alert lists and updated state.  In this embedding every stateful
dependency (PRNG, rolling state, clock) is an explicit argument, so there is
no further hidden source of nondeterminism. -/
theorem runDetectionLogic_deterministic (dist : Point → Point → ℚ)
    (actors : List Actor) (sensors : List Sensor) (weather : Weather)
    (prng : PRNG) (rules : List DetectionRule) (st : DetectionState)
    (now1 now2 : ℤ) (h : now1 = now2) :
    runDetectionLogic dist actors sensors weather prng rules st now1 =
      runDetectionLogic dist actors sensors weather prng rules st now2 := by
  rw [h]

theorem runDetectionLogic_deterministic_witness :
    runDetectionLogic distZero [probeActor] [probeSensor] .clear ⟨0⟩ [] [] 5 =
      runDetectionLogic distZero [probeActor] [probeSensor] .clear ⟨0⟩ [] [] 5 :=
  runDetectionLogic_deterministic distZero [probeActor] [probeSensor] .clear ⟨0⟩ [] [] 5 5 rfl

/-- C5: beyond the sensor's range the detection model returns no event and
consumes no PRNG draw, for every distance function (in particular the
haversine `getDistance`), actor, sensor, weather and PRNG state. -/
theorem generateSensorEvent_range_cutoff (dist : Point → Point → ℚ)
    (actor : Actor) (sensor : Sensor) (weather : Weather) (now : ℤ) (g : PRNG)
    (h : sensor.range < dist actor.pos sensor.pos) :
    generateSensorEvent dist actor sensor weather now g = (none, g) := by
  unfold generateSensorEvent
  rw [if_neg (not_le.mpr h)]

theorem generateSensorEvent_range_cutoff_witness :
    probeSensor.range < distFar probeActor.pos probeSensor.pos ∧
      generateSensorEvent distFar probeActor probeSensor .clear 0 ⟨7⟩ = (none, ⟨7⟩) :=
  ⟨by norm_num [distFar, probeSensor],
   generateSensorEvent_range_cutoff distFar probeActor probeSensor .clear 0 ⟨7⟩
     (by norm_num [distFar, probeSensor])⟩

/-- C4: for an actor within a (nonzero-range) sensor's range, the detection
probability is `base_p` times the applied weather penalty times the linear
falloff `1 - d/range` times `0.8` exactly when the actor is an adversary; an
event is emitted iff the PRNG draw `r` satisfies `r < prob`, and the emitted
confidence is that probability itself.  (`applyWeatherPenalty` is the factor
the code applies — a present nonzero entry; C6 treats the zero-entry edge.) -/
theorem generateSensorEvent_probability (dist : Point → Point → ℚ)
    (actor : Actor) (sensor : Sensor) (weather : Weather) (now : ℤ) (g : PRNG)
    (hin : dist actor.pos sensor.pos ≤ sensor.range) (hr : ¬sensor.range = 0) :
    generateSensorEvent dist actor sensor weather now g =
      (if (g.random).1 < applyWeatherPenalty sensor weather sensor.base_p *
            (1 - dist actor.pos sensor.pos / sensor.range) *
            (if actor.type = ActorType.adversary then 4 / 5 else 1) then
         (some { timestamp := now, sensorId := sensor.id, actorId := actor.id,
                 confidence := applyWeatherPenalty sensor weather sensor.base_p *
                   (1 - dist actor.pos sensor.pos / sensor.range) *
                   (if actor.type = ActorType.adversary then 4 / 5 else 1),
                 actorPos := actor.pos }, (g.random).2)
       else (none, (g.random).2)) := by
  unfold generateSensorEvent
  rw [if_pos hin, if_neg hr]
  by_cases hadv : actor.type = ActorType.adversary <;>
    simp [hadv, mul_one]

theorem generateSensorEvent_probability_witness :
    distZero advProbe.pos probeSensor.pos ≤ probeSensor.range ∧
    ¬probeSensor.range = 0 ∧
    generateSensorEvent distZero advProbe probeSensor .clear 0 ⟨42⟩ =
      (if ((⟨42⟩ : PRNG).random).1 < applyWeatherPenalty probeSensor .clear probeSensor.base_p *
            (1 - distZero advProbe.pos probeSensor.pos / probeSensor.range) *
            (if advProbe.type = ActorType.adversary then 4 / 5 else 1) then
         (some { timestamp := 0, sensorId := probeSensor.id, actorId := advProbe.id,
                 confidence := applyWeatherPenalty probeSensor .clear probeSensor.base_p *
                   (1 - distZero advProbe.pos probeSensor.pos / probeSensor.range) *
                   (if advProbe.type = ActorType.adversary then 4 / 5 else 1),
                 actorPos := advProbe.pos }, ((⟨42⟩ : PRNG).random).2)
       else (none, ((⟨42⟩ : PRNG).random).2)) :=
  ⟨by norm_num [distZero, probeSensor], by norm_num [probeSensor],
   generateSensorEvent_probability distZero advProbe probeSensor .clear 0 ⟨42⟩
     (by norm_num [distZero, probeSensor]) (by norm_num [probeSensor])⟩

/-- C6 (counterexample): a weather-penalty entry whose factor is `0` is NOT
applied: `0` is falsy in JavaScript, so `if (penalty)` skips the
multiplication.  The fog sensor with entry `0` still emits an event with
confidence `1`, whereas multiplying by the entry would give probability `0`
and no event. -/
theorem weather_penalty_zero_counterexample :
    fogSensor.weather_penalty .fog = some 0 ∧
    (generateSensorEvent distZero probeActor fogSensor .fog 0 ⟨0⟩).1 =
      some { timestamp := 0, sensorId := "s2", actorId := "a1", confidence := 1,
             actorPos := ((0 : ℚ), (0 : ℚ)) } ∧
    ¬((1 : ℚ) = fogSensor.base_p * 0 *
        (1 - distZero probeActor.pos fogSensor.pos / fogSensor.range) * 1) := by
  refine ⟨rfl, ?_, by norm_num [fogSensor]⟩
  rw [fog_event]

/-- C6 (amended): the detection probability is multiplied by the
weather-penalty entry when one is present and nonzero; an absent entry and an
entry of `0` (falsy in JavaScript) both leave the probability unchanged. -/
theorem applyWeatherPenalty_spec (sensor : Sensor) (weather : Weather) (prob : ℚ) :
    (∀ pen, sensor.weather_penalty weather = some pen → ¬pen = 0 →
       applyWeatherPenalty sensor weather prob = prob * pen) ∧
    (sensor.weather_penalty weather = none →
       applyWeatherPenalty sensor weather prob = prob) ∧
    (sensor.weather_penalty weather = some 0 →
       applyWeatherPenalty sensor weather prob = prob) := by
  refine ⟨fun pen hp hz => ?_, fun hp => ?_, fun hp => ?_⟩
  · simp [applyWeatherPenalty, hp, hz]
  · simp [applyWeatherPenalty, hp]
  · simp [applyWeatherPenalty, hp]

theorem applyWeatherPenalty_spec_witness :
    applyWeatherPenalty fogCam .fog 1 = 1 * (2 / 5) ∧
    applyWeatherPenalty probeSensor .clear 1 = 1 ∧
    applyWeatherPenalty fogSensor .fog 1 = 1 :=
  ⟨(applyWeatherPenalty_spec fogCam .fog 1).1 (2 / 5) rfl (by norm_num),
   (applyWeatherPenalty_spec probeSensor .clear 1).2.1 rfl,
   (applyWeatherPenalty_spec fogSensor .fog 1).2.2 rfl⟩

theorem evalRule_filter_fold (dist : Point → Point → ℚ) (advId : Option String)
    (now : ℤ) (evts : List SensorEvent) :
    ∀ (rules : List DetectionRule) (acc : List Alert × DetectionState),
      (rules.filter recognizedRule).foldl (evalRule dist advId now evts) acc =
        rules.foldl (evalRule dist advId now evts) acc := by
  intro rules
  induction rules with
  | nil => intro acc; rfl
  | cons r rest ih =>
    intro acc
    by_cases hr : recognizedRule r = true
    · simp only [List.filter_cons, hr, if_true, List.foldl_cons]
      exact ih _
    · have hskip := evalRule_not_recognized dist advId now evts acc r
        (by simpa using hr)
      simp only [List.filter_cons, hr, if_false, List.foldl_cons, hskip,
        Bool.false_eq_true]
      exact ih _

/-- C9: rules whose `type` is not one of the three recognized strings are
silently skipped — the engine behaves exactly as if they were absent: no
alert, no touched state, and the recognized rules are evaluated in the order
given.  (The engine is a total function, so no error is raised.) -/
theorem runDetectionLogic_skips_unknown (dist : Point → Point → ℚ)
    (actors : List Actor) (sensors : List Sensor) (weather : Weather)
    (prng : PRNG) (rules : List DetectionRule) (st : DetectionState) (now : ℤ) :
    runDetectionLogic dist actors sensors weather prng rules st now =
      runDetectionLogic dist actors sensors weather prng
        (rules.filter recognizedRule) st now := by
  unfold runDetectionLogic
  cases hE : generateAllEvents dist weather now sensors actors prng with
  | mk evts g2 =>
    by_cases hempty : evts = []
    · simp [hempty]
    · simp [hempty, evalRule_filter_fold]

theorem groupSrc_alerts_related (dist : Point → Point → ℚ) (rule : DetectionRule)
    (now : ℤ) (hist : List SensorEvent) (a : Alert) :
    ∀ (advEvts : List SensorEvent) (acc2 : List Alert × DetectionState),
      a ∈ (advEvts.foldl (groupStepSrc dist rule now hist) acc2).1 →
      a ∈ acc2.1 ∨ a.relatedEvents = [] := by
  intro advEvts
  induction advEvts with
  | nil => intro acc2 h; exact Or.inl h
  | cons e rest ih =>
    intro acc2 h
    rw [List.foldl_cons] at h
    rcases ih _ h with hmem | hempty
    · rw [groupStepSrc_eq] at hmem
      split at hmem
      · split at hmem
        · simp only [List.mem_append, List.mem_singleton] at hmem
          rcases hmem with hm | hm
          · exact Or.inl hm
          · exact Or.inr (by rw [hm]; rfl)
        · exact Or.inl hmem
      · exact Or.inl hmem
    · exact Or.inr hempty

/-- C10 (counterexample): the `group_sighting` rule fires on the probe
adversary, yet the emitted alert's `relatedEvents` is the empty list — the
source passes the literal `relatedEvents: []`. -/
theorem group_alert_empty_relatedEvents :
    (runDetectionLogic distZero [advProbe] [probeSensor] .clear ⟨42⟩
        [groupProbeRule] [] 0).newAlerts.map Alert.relatedEvents = [[]] ∧
    (runDetectionLogic distZero [advProbe] [probeSensor] .clear ⟨42⟩
        [groupProbeRule] [] 0).newAlerts ≠ [] := by
  refine ⟨?_, ?_⟩
  · rw [group_run_alerts]
    rfl
  · rw [group_run_alerts]
    simp

/-- C10 (amended): every alert the rule engine emits beyond the accumulator is
justified as follows — a `high_confidence_sighting` alert carries exactly the
triggering adversary event; a `persistent_sighting` alert carries the whole
accumulated list (pruned history plus this tick's adversary events, of length
at least `min_detections`); a `group_sighting` alert carries the EMPTY list. -/
theorem alert_relatedEvents_provenance (dist : Point → Point → ℚ)
    (advId : Option String) (now : ℤ) (evts : List SensorEvent)
    (acc : List Alert × DetectionState) (rule : DetectionRule) (a : Alert)
    (ha : a ∈ (evalRule dist advId now evts acc rule).1) :
    a ∈ acc.1 ∨
    (rule.type = "high_confidence_sighting" ∧ ∃ e, e ∈ evts ∧
      matchesAdv advId e = true ∧ rule.params.min_confidence < e.confidence ∧
      a.relatedEvents = [e]) ∨
    (rule.type = "persistent_sighting" ∧
      a.relatedEvents = (getEvents acc.2 rule.id).filter
          (fun e => now - e.timestamp < rule.params.time_window_s * 1000) ++
        evts.filter (matchesAdv advId) ∧
      rule.params.min_detections ≤ a.relatedEvents.length) ∨
    (rule.type = "group_sighting" ∧ a.relatedEvents = []) := by
  by_cases h1 : rule.type = "high_confidence_sighting"
  · rw [evalRule_hc_eq dist advId now evts acc rule h1] at ha
    cases hF : evts.find?
        (fun e => matchesAdv advId e && rule.params.min_confidence < e.confidence) with
    | none => rw [hF] at ha; exact Or.inl ha
    | some e =>
      rw [hF] at ha
      simp only [List.mem_append, List.mem_singleton] at ha
      rcases ha with hm | hm
      · exact Or.inl hm
      · have hp := List.find?_some hF
        simp only [Bool.and_eq_true, decide_eq_true_eq] at hp
        exact Or.inr (Or.inl ⟨h1, e, List.mem_of_find?_eq_some hF, hp.1, hp.2,
          by rw [hm]; rfl⟩)
  · by_cases h2 : rule.type = "persistent_sighting"
    · rw [evalRule_ps_eq dist advId now evts acc rule h2] at ha
      simp only [List.mem_append] at ha
      rcases ha with hm | hm
      · exact Or.inl hm
      · by_cases hlen : rule.params.min_detections ≤
            ((getEvents acc.2 rule.id).filter
                (fun e => now - e.timestamp < rule.params.time_window_s * 1000) ++
              evts.filter (matchesAdv advId)).length
        · unfold persistentSpecStep at hm
          rw [if_pos hlen] at hm
          simp only [List.mem_singleton] at hm
          refine Or.inr (Or.inr (Or.inl ⟨h2, by rw [hm]; rfl, ?_⟩))
          rw [hm]
          exact hlen
        · unfold persistentSpecStep at hm
          rw [if_neg hlen] at hm
          simp at hm
    · by_cases h3 : rule.type = "group_sighting"
      · unfold evalRule at ha
        rw [if_neg h1, if_neg h2, if_pos h3] at ha
        rcases groupSrc_alerts_related dist rule now
            ((getEvents acc.2 rule.id ++ evts).filter
              (fun e => now - e.timestamp < rule.params.time_window_s * 1000)) a
            (evts.filter (matchesAdv advId))
            (acc.1, setState acc.2 rule.id
              (.evs ((getEvents acc.2 rule.id ++ evts).filter
                (fun e => now - e.timestamp < rule.params.time_window_s * 1000))))
            ha with hmem | hempty
        · exact Or.inl hmem
        · exact Or.inr (Or.inr (Or.inr ⟨h3, hempty⟩))
      · rw [evalRule_not_recognized dist advId now evts acc rule
          (by simp [recognizedRule, h1, h2, h3])] at ha
        exact Or.inl ha

theorem alert_relatedEvents_provenance_witness :
    (hcAlert 0 (pev 0)) ∈ (evalRule distZero (some "adv-1") 0 [pev 0] ([], []) hcProbeRule).1 ∧
    ((hcAlert 0 (pev 0)) ∈ ([] : List Alert) ∨
     (hcProbeRule.type = "high_confidence_sighting" ∧ ∃ e, e ∈ [pev 0] ∧
       matchesAdv (some "adv-1") e = true ∧
       hcProbeRule.params.min_confidence < e.confidence ∧
       (hcAlert 0 (pev 0)).relatedEvents = [e]) ∨
     (hcProbeRule.type = "persistent_sighting" ∧
       (hcAlert 0 (pev 0)).relatedEvents = (getEvents ([] : DetectionState) hcProbeRule.id).filter
           (fun e => (0 : ℤ) - e.timestamp < hcProbeRule.params.time_window_s * 1000) ++
         ([pev 0].filter (matchesAdv (some "adv-1"))) ∧
       hcProbeRule.params.min_detections ≤ (hcAlert 0 (pev 0)).relatedEvents.length) ∨
     (hcProbeRule.type = "group_sighting" ∧ (hcAlert 0 (pev 0)).relatedEvents = [])) :=
  ⟨by decide,
   alert_relatedEvents_provenance distZero (some "adv-1") 0 [pev 0] ([], [])
     hcProbeRule (hcAlert 0 (pev 0)) (by decide)⟩

/-- C2: the `persistent_sighting` case equals its spec description — prune the
stored adversary-only list to the trailing window, append this tick's
adversary events, and on reaching `min_detections` emit exactly one critical
alert referencing the whole list while resetting the stored list to empty
(below the threshold the list is stored and no alert fires).  In particular,
with `min_detections = 3`, three qualifying events yield one alert and an
immediately following fourth yields none (see the witness). -/
theorem persistent_sighting_reset (dist : Point → Point → ℚ)
    (advId : Option String) (now : ℤ) (evts : List SensorEvent)
    (acc : List Alert × DetectionState) (rule : DetectionRule)
    (h : rule.type = "persistent_sighting") :
    evalRule dist advId now evts acc rule =
      (acc.1 ++ (persistentSpecStep advId now rule evts (getEvents acc.2 rule.id)).1,
       setState acc.2 rule.id
         (.evs (persistentSpecStep advId now rule evts (getEvents acc.2 rule.id)).2)) :=
  evalRule_ps_eq dist advId now evts acc rule h

theorem persistent_sighting_reset_witness :
    (evalRule distZero (some "adv-1") 1000 [pev 1] ([], []) persProbeRule) =
      ([], [("p1", .evs [pev 1])]) ∧
    (evalRule distZero (some "adv-1") 2000 [pev 2] ([], [("p1", .evs [pev 1])]) persProbeRule) =
      ([], [("p1", .evs [pev 1, pev 2])]) ∧
    (evalRule distZero (some "adv-1") 3000 [pev 3] ([], [("p1", .evs [pev 1, pev 2])]) persProbeRule) =
      ([persAlert 3000 [pev 1, pev 2, pev 3]], [("p1", .evs [])]) ∧
    (evalRule distZero (some "adv-1") 4000 [pev 4] ([], [("p1", .evs [])]) persProbeRule) =
      ([], [("p1", .evs [pev 4])]) ∧
    (evalRule distZero (some "adv-1") 1000 [pev 1] ([], []) persProbeRule) =
      (([] : List Alert) ++
        (persistentSpecStep (some "adv-1") 1000 persProbeRule [pev 1]
          (getEvents ([] : DetectionState) persProbeRule.id)).1,
       setState ([] : DetectionState) persProbeRule.id
         (.evs (persistentSpecStep (some "adv-1") 1000 persProbeRule [pev 1]
           (getEvents ([] : DetectionState) persProbeRule.id)).2)) :=
  ⟨by decide, by decide, by decide, by decide,
   persistent_sighting_reset distZero (some "adv-1") 1000 [pev 1] ([], [])
     persProbeRule rfl⟩

/-- C3 (counterexample): at the exact boundary `now = cooldown` the stored
cooldown timestamp is NOT in the future relative to `now`, the triggering
adversary event qualifies (`min_actors` reached), and yet no alert fires —
the source requires `now > cooldown` strictly. -/
theorem group_cooldown_boundary :
    getCooldown cdState ("g1" ++ "-cooldown") = some 5000 ∧
    ¬((5000 : ℤ) > 5000) ∧
    groupProbeRule.params.min_actors ≤
      distinctNearby distZero groupProbeRule.params.radius_m (pev 5)
        ((getEvents cdState "g1" ++ [pev 5]).filter
          (fun e => (5000 : ℤ) - e.timestamp < groupProbeRule.params.time_window_s * 1000)) ∧
    (evalRule distZero (some "adv-1") 5000 [pev 5] ([], cdState) groupProbeRule).1 = [] := by
  refine ⟨by decide, by decide, by decide, by decide⟩

/-- C3 (amended): the `group_sighting` case equals its spec description — the
rolling list of all actors' events is pruned to the trailing window; for each
adversary event this tick, the distinct nearby actor count (adversary
included) reaching `min_actors` fires a critical alert UNLESS a recorded
nonzero cooldown `c` satisfies `now ≤ c` (suppressed also at the exact
boundary instant `now = c`; a stored `0` is falsy and ignored); each firing
records the cooldown `now + time_window_s * 1000`, so repeat alerts are
suppressed until `now` strictly exceeds it. -/
theorem group_sighting_cooldown (dist : Point → Point → ℚ)
    (advId : Option String) (now : ℤ) (evts : List SensorEvent)
    (acc : List Alert × DetectionState) (rule : DetectionRule)
    (h : rule.type = "group_sighting")
    (hwf : cooldownWF acc.2 (rule.id ++ "-cooldown")) :
    evalRule dist advId now evts acc rule =
      (acc.1 ++ (groupSpecStep dist advId now rule evts (getEvents acc.2 rule.id)
          (getCooldown acc.2 (rule.id ++ "-cooldown"))).alerts,
       if (groupSpecStep dist advId now rule evts (getEvents acc.2 rule.id)
          (getCooldown acc.2 (rule.id ++ "-cooldown"))).fired then
         setState (setState acc.2 rule.id
             (.evs (groupSpecStep dist advId now rule evts (getEvents acc.2 rule.id)
               (getCooldown acc.2 (rule.id ++ "-cooldown"))).hist))
           (rule.id ++ "-cooldown") (.ts (now + rule.params.time_window_s * 1000))
       else
         setState acc.2 rule.id
           (.evs (groupSpecStep dist advId now rule evts (getEvents acc.2 rule.id)
             (getCooldown acc.2 (rule.id ++ "-cooldown"))).hist)) :=
  evalRule_gs_eq dist advId now evts acc rule h hwf

theorem group_sighting_cooldown_witness :
    evalRule distZero (some "adv-1") 0 [pev 0] ([], []) groupProbeRule =
      (([] : List Alert) ++ (groupSpecStep distZero (some "adv-1") 0 groupProbeRule [pev 0]
          (getEvents ([] : DetectionState) groupProbeRule.id)
          (getCooldown ([] : DetectionState) (groupProbeRule.id ++ "-cooldown"))).alerts,
       if (groupSpecStep distZero (some "adv-1") 0 groupProbeRule [pev 0]
          (getEvents ([] : DetectionState) groupProbeRule.id)
          (getCooldown ([] : DetectionState) (groupProbeRule.id ++ "-cooldown"))).fired then
         setState (setState ([] : DetectionState) groupProbeRule.id
             (.evs (groupSpecStep distZero (some "adv-1") 0 groupProbeRule [pev 0]
               (getEvents ([] : DetectionState) groupProbeRule.id)
               (getCooldown ([] : DetectionState) (groupProbeRule.id ++ "-cooldown"))).hist))
           (groupProbeRule.id ++ "-cooldown")
           (.ts (0 + groupProbeRule.params.time_window_s * 1000))
       else
         setState ([] : DetectionState) groupProbeRule.id
           (.evs (groupSpecStep distZero (some "adv-1") 0 groupProbeRule [pev 0]
             (getEvents ([] : DetectionState) groupProbeRule.id)
             (getCooldown ([] : DetectionState) (groupProbeRule.id ++ "-cooldown"))).hist)) :=
  group_sighting_cooldown distZero (some "adv-1") 0 [pev 0] ([], []) groupProbeRule
    rfl (fun _ hv => Option.noConfusion hv)

/-! ## Helper lemmas: the orchestrator tick loop -/

theorem advanceActor_type (pois : List (String × Point)) (a : Actor) (g : PRNG) :
    ((advanceActor pois a g).1).type = a.type := by
  unfold advanceActor
  split
  · split
    · cases hx : getRandomPoiName pois [] g with
      | mk name g2 => simp [hx]
    · rfl
  · rfl

/-- An adversary's advance step: stays put at the last waypoint, otherwise
moves one waypoint along the unchanged path. -/
theorem advanceActor_adv_cases (pois : List (String × Point)) (a : Actor) (g : PRNG)
    (h : a.type = ActorType.adversary) :
    (a.path.length ≤ a.pathIndex + 1 ∧ (advanceActor pois a g).1 = a) ∨
    (¬(a.path.length ≤ a.pathIndex + 1) ∧
      (advanceActor pois a g).1 =
        { a with pathIndex := a.pathIndex + 1,
                 pos := a.path.getD (a.pathIndex + 1) a.pos }) := by
  unfold advanceActor
  by_cases hend : a.path.length ≤ a.pathIndex + 1
  · left
    refine ⟨hend, ?_⟩
    rw [if_pos hend, if_neg (by rw [h]; decide)]
  · right
    refine ⟨hend, ?_⟩
    rw [if_neg hend]

/-- The first adversary of the advanced actor list is the advanced version of
the first adversary of the original list (for some intermediate PRNG state). -/
theorem find_adv_after_advance (pois : List (String × Point)) :
    ∀ (actors : List Actor) (g : PRNG) (b : Actor),
      (advanceActors pois actors g).1.find? (fun x => x.type = ActorType.adversary) = some b →
      ∃ a g2, actors.find? (fun x => x.type = ActorType.adversary) = some a ∧
        b = (advanceActor pois a g2).1 := by
  intro actors
  induction actors with
  | nil => intro g b h; exact absurd h (by simp [advanceActors])
  | cons a rest ih =>
    intro g b h
    unfold advanceActors at h
    simp only [List.find?_cons] at h ⊢
    rw [advanceActor_type] at h
    by_cases ha : a.type = ActorType.adversary
    · rw [decide_eq_true ha] at h
      exact ⟨a, g, by rw [decide_eq_true ha], (Option.some_inj.mp h).symm⟩
    · rw [decide_eq_false ha] at h
      obtain ⟨a1, g2, hfind, hb⟩ := ih (advanceActor pois a g).2 b h
      refine ⟨a1, g2, ?_, hb⟩
      rw [decide_eq_false ha]
      exact hfind

/-- A tick that neither resolves the run strictly advances the adversary:
its `pathIndex` increases by one and the remaining-waypoint measure drops. -/
theorem simTick_next_measure (dist : Point → Point → ℚ)
    (pois : List (String × Point)) (sensors : List Sensor)
    (rules : List DetectionRule) (weather : Weather) (now : ℤ)
    (actors : List Actor) (st : DetectionState) (g : PRNG)
    (a2 : List Actor) (st2 : DetectionState) (g2 : PRNG)
    (h : simTick dist pois sensors rules weather now actors st g = .next a2 st2 g2) :
    advMeasure a2 < advMeasure actors ∧
    ∃ i, advPathIndex actors = some i ∧ advPathIndex a2 = some (i + 1) := by
  unfold simTick at h
  cases hA : advanceActors pois actors g with
  | mk actors2 gA =>
    rw [hA] at h
    simp only at h
    cases hF : actors2.find? (fun x => x.type = ActorType.adversary) with
    | none => rw [hF] at h; exact absurd h (by simp)
    | some adv =>
      rw [hF] at h
      simp only at h
      by_cases hend : adv.path.length ≤ adv.pathIndex + 1
      · rw [if_pos hend] at h
        exact absurd h (by simp)
      · rw [if_neg hend] at h
        have ha2 : a2 = actors2 := by
          by_cases hcrit : (runDetectionLogic dist actors2 sensors weather gA rules st
              now).newAlerts.any (fun x => x.level = AlertLevel.critical) = true
          · rw [if_pos hcrit] at h
            exact absurd h (by simp)
          · rw [if_neg hcrit] at h
            injection h with h1 _
            exact h1.symm
        obtain ⟨a0, g0, hfind0, hadv⟩ := find_adv_after_advance pois actors g adv
          (by rw [hA]; exact hF)
        have htyAdv : adv.type = ActorType.adversary := by
          have := List.find?_some hF
          simpa using this
        have hty0 : a0.type = ActorType.adversary := by
          rw [hadv, advanceActor_type] at htyAdv
          exact htyAdv
        rcases advanceActor_adv_cases pois a0 g0 hty0 with ⟨hend0, heq⟩ | ⟨hend0, heq⟩
        · rw [hadv, heq] at hend
          exact absurd hend0 hend
        · have hidx : adv.pathIndex = a0.pathIndex + 1 := by rw [hadv, heq]
          have hpath : adv.path = a0.path := by rw [hadv, heq]
          have hMa : advMeasure actors = a0.path.length - a0.pathIndex := by
            unfold advMeasure findAdv
            rw [hfind0]
          have hM2 : advMeasure a2 = a0.path.length - (a0.pathIndex + 1) := by
            unfold advMeasure findAdv
            rw [ha2, hF]
            simp only
            rw [hpath, hidx]
          have hP0 : advPathIndex actors = some a0.pathIndex := by
            unfold advPathIndex findAdv
            rw [hfind0]
            rfl
          have hP2 : advPathIndex a2 = some (a0.pathIndex + 1) := by
            unfold advPathIndex findAdv
            rw [ha2, hF]
            simp [hidx]
          have hlen : a0.pathIndex + 1 + 1 ≤ a0.path.length := by
            rw [hpath, hidx] at hend
            omega
          refine ⟨?_, a0.pathIndex, hP0, hP2⟩
          rw [hMa, hM2]
          omega

/-- With fuel exceeding the adversary's remaining waypoints, the tick loop
resolves to a verdict. -/
theorem runSim_resolves (dist : Point → Point → ℚ) (pois : List (String × Point))
    (sensors : List Sensor) (rules : List DetectionRule) (weather : Weather) :
    ∀ (fuel : ℕ) (now : ℤ) (actors : List Actor) (st : DetectionState) (g : PRNG),
      advMeasure actors < fuel →
      ∃ v, runSim dist pois sensors rules weather fuel now actors st g = some v := by
  intro fuel
  induction fuel with
  | zero => intro now actors st g h; exact absurd h (by omega)
  | succ n ih =>
    intro now actors st g h
    cases hT : simTick dist pois sensors rules weather now actors st g with
    | bypassed => exact ⟨.BYPASSED, by unfold runSim; rw [hT]⟩
    | detected => exact ⟨.DETECTED, by unfold runSim; rw [hT]⟩
    | next a2 st2 g2 =>
      have hdec := (simTick_next_measure dist pois sensors rules weather now
        actors st g a2 st2 g2 hT).1
      obtain ⟨v, hv⟩ := ih (now + 1000) a2 st2 g2 (by omega)
      exact ⟨v, by unfold runSim; rw [hT]; exact hv⟩

/-- C7: for every started run the tick loop resolves — within fuel bounded by
the adversary's remaining waypoints — to exactly one verdict (`some v`, with
`v` either `DETECTED` or `BYPASSED`; `runSim` cannot return both, being a
function into `Option Verdict`), and every tick that resolves neither verdict
strictly increments the adversary's `pathIndex`. -/
theorem simulation_terminates (dist : Point → Point → ℚ)
    (pois : List (String × Point)) (sensors : List Sensor)
    (rules : List DetectionRule) (weather : Weather) (now : ℤ)
    (actors : List Actor) (st : DetectionState) (g : PRNG) :
    (∃ v, runSim dist pois sensors rules weather (advMeasure actors + 1)
      now actors st g = some v) ∧
    (∀ a2 st2 g2, simTick dist pois sensors rules weather now actors st g =
        .next a2 st2 g2 →
      ∃ i, advPathIndex actors = some i ∧ advPathIndex a2 = some (i + 1)) :=
  ⟨runSim_resolves dist pois sensors rules weather (advMeasure actors + 1)
     now actors st g (Nat.lt_succ_self _),
   fun a2 st2 g2 h =>
     (simTick_next_measure dist pois sensors rules weather now actors st g
       a2 st2 g2 h).2⟩

theorem simulation_terminates_witness :
    (∃ v, runSim distZero [] [] [] .clear (advMeasure [advPath2] + 1)
      0 [advPath2] [] ⟨0⟩ = some v) ∧
    (∃ i, advPathIndex [advPath2] = some i ∧
      advPathIndex [{ advPath2 with pathIndex := 1, pos := ((1 : ℚ), (1 : ℚ)) }] =
        some (i + 1)) :=
  ⟨(simulation_terminates distZero [] [] [] .clear 0 [advPath2] [] ⟨0⟩).1,
   (simulation_terminates distZero [] [] [] .clear 0 [advPath2] [] ⟨0⟩).2
     [{ advPath2 with pathIndex := 1, pos := ((1 : ℚ), (1 : ℚ)) }] [] ⟨0⟩ (by decide)⟩

/-! ## Helper lemmas: the actor path invariant -/

theorem mkCivilian_WF (pois : List (String × Point)) (i : ℕ) (g : PRNG) :
    ActorWF (mkCivilian pois i g).1 := by
  unfold mkCivilian
  cases hx : getRandomPoiName pois [] g with
  | mk s g1 =>
    cases hy : getRandomPoiName pois [s] g1 with
    | mk t g2 => exact ⟨by simp, by simp⟩

theorem mkAdversary_WF (path : List Point) (gps : GpsMode) (h : path ≠ []) :
    ActorWF (mkAdversary path gps) := by
  unfold mkAdversary ActorWF
  cases path with
  | nil => exact absurd rfl h
  | cons p rest => exact ⟨by simp, by simp [List.headI]⟩

theorem advanceActor_WF (pois : List (String × Point)) (a : Actor) (g : PRNG)
    (h : ActorWF a) : ActorWF (advanceActor pois a g).1 := by
  obtain ⟨h1, h2⟩ := h
  unfold advanceActor
  by_cases hend : a.path.length ≤ a.pathIndex + 1
  · rw [if_pos hend]
    by_cases hciv : a.type = ActorType.civilian
    · rw [if_pos hciv]
      cases hx : getRandomPoiName pois [] g with
      | mk s g2 => exact ⟨by simp, by simp⟩
    · rw [if_neg hciv]
      exact ⟨h1, h2⟩
  · rw [if_neg hend]
    have hlt : a.pathIndex + 1 < a.path.length := by omega
    refine ⟨by simpa using hlt, ?_⟩
    simp only
    rw [List.getD_eq_getElem?_getD, List.getElem?_eq_getElem hlt]
    rfl

theorem advanceActors_WF (pois : List (String × Point)) :
    ∀ (actors : List Actor) (g : PRNG), (∀ a ∈ actors, ActorWF a) →
      ∀ b ∈ (advanceActors pois actors g).1, ActorWF b := by
  intro actors
  induction actors with
  | nil => intro g _ b hb; simp [advanceActors] at hb
  | cons a rest ih =>
    intro g h b hb
    unfold advanceActors at hb
    cases hx : advanceActor pois a g with
    | mk a2 g2 =>
      rw [hx] at hb
      simp only at hb
      cases hy : advanceActors pois rest g2 with
      | mk rest2 g3 =>
        rw [hy] at hb
        simp only [List.mem_cons] at hb
        rcases hb with hb | hb
        · rw [hb]
          have := advanceActor_WF pois a g (h a (List.mem_cons_self a rest))
          rwa [hx] at this
        · exact ih g2 (fun x hx2 => h x (List.mem_cons_of_mem a hx2)) b (by rw [hy]; exact hb)

/-- C8: the actor invariant — `pathIndex` is a valid index into `path` and
`pos` is the waypoint at that index — holds for freshly created civilians,
for a freshly created adversary on a nonempty path, and is preserved by the
per-tick advance of a single actor and of the whole actor list (including the
civilian re-pathing branch). -/
theorem actor_path_invariant (pois : List (String × Point)) :
    (∀ i g, ActorWF (mkCivilian pois i g).1) ∧
    (∀ path gps, path ≠ [] → ActorWF (mkAdversary path gps)) ∧
    (∀ a g, ActorWF a → ActorWF (advanceActor pois a g).1) ∧
    (∀ actors g, (∀ a ∈ actors, ActorWF a) →
      ∀ b ∈ (advanceActors pois actors g).1, ActorWF b) :=
  ⟨mkCivilian_WF pois, mkAdversary_WF, advanceActor_WF pois, advanceActors_WF pois⟩

theorem actor_path_invariant_witness :
    ActorWF (mkAdversary [((0 : ℚ), (0 : ℚ))] .off) ∧
    ActorWF (advanceActor [] advPath2 ⟨0⟩).1 :=
  ⟨(actor_path_invariant []).2.1 [((0 : ℚ), (0 : ℚ))] .off (by simp),
   (actor_path_invariant []).2.2.1 advPath2 ⟨0⟩ ⟨by decide, by decide⟩⟩

end Mirage
